import Mathlib

/-!
Verification of the utp-core outbound layer against its specification.

The Go sources are shallowly embedded below.  Time instants and
`time.Duration` values are modelled as `Int` nanoseconds (Go stores both
as int64; every quantity handled by the claims is far below the overflow
bound, so wraparound is not modelled).  Byte slices are `List Nat`,
`error` results are `Option String` (`none` = nil error) or
`Except String` for `(value, error)` pairs, and external `net.Conn`
values are modelled by behaviour records supplied by the environment.
-/

/-! ## internal/utils: Metrics (source part_000, NewMetrics / IncConnections / DecConnections)

Only the fields touched by the claims are carried; the Go struct also
holds byte counters and a start time.  `connections` is a Go `int`,
modelled as an unbounded `Int` (the sequences considered stay far below
2^63). -/

structure Metrics where
  bytesSent : Nat
  bytesReceived : Nat
  connections : Int
deriving Repr, DecidableEq

def NewMetrics : Metrics :=
  { bytesSent := 0, bytesReceived := 0, connections := 0 }

def Metrics.IncConnections (m : Metrics) : Metrics :=
  { m with connections := m.connections + 1 }

/-- Source guard: `if m.connections > 0 { m.connections-- }`. -/
def Metrics.DecConnections (m : Metrics) : Metrics :=
  if m.connections > 0 then { m with connections := m.connections - 1 } else m

inductive MetricsOp where
  | inc : MetricsOp
  | dec : MetricsOp
deriving Repr, DecidableEq

def Metrics.applyOp (m : Metrics) : MetricsOp → Metrics
  | .inc => m.IncConnections
  | .dec => m.DecConnections

def Metrics.applyOps (m : Metrics) (ops : List MetricsOp) : Metrics :=
  ops.foldl Metrics.applyOp m

/-! ## internal/utils: Connection wrapper (source part_000, Read / Write / IsIdle)

`Connection` wraps a `net.Conn`; the wrapped stream's own result
`(n, err)` is supplied by the environment, and the wrapper decides
whether to refresh `lastActivity` (`if err == nil && n > 0`). -/

structure Connection where
  lastActivity : Int
deriving Repr, DecidableEq

def NewConnection (now : Int) : Connection :=
  { lastActivity := now }

/-- `Connection.Read`: the underlying stream returned `(n, err)` at time
`now`; the wrapper updates `lastActivity` iff `err == nil && n > 0`. -/
def Connection.Read (c : Connection) (now : Int) (n : Int) (err : Option String) :
    (Int × Option String) × Connection :=
  ((n, err), if err = none ∧ n > 0 then { lastActivity := now } else c)

/-- `Connection.Write`: same update rule as `Read`. -/
def Connection.Write (c : Connection) (now : Int) (n : Int) (err : Option String) :
    (Int × Option String) × Connection :=
  ((n, err), if err = none ∧ n > 0 then { lastActivity := now } else c)

/-- `IsIdle`: `time.Since(c.lastActivity) > duration`. -/
def Connection.IsIdle (c : Connection) (now : Int) (duration : Int) : Bool :=
  now - c.lastActivity > duration

/-! ## extensions/obfs: obfuscateData / deobfuscateData (source extensions/obfs/outbound.go)

Each per-protocol transform in the source returns `(data, nil)`
unchanged; the dispatchers select the transform by `config.Protocol`
and the default branch also returns `(data, nil)`. -/

def obfuscateObfs4 (data : List Nat) : Except String (List Nat) := .ok data
def deobfuscateObfs4 (data : List Nat) : Except String (List Nat) := .ok data
def obfuscateMeek (data : List Nat) : Except String (List Nat) := .ok data
def deobfuscateMeek (data : List Nat) : Except String (List Nat) := .ok data
def obfuscateNaiveProxy (data : List Nat) : Except String (List Nat) := .ok data
def deobfuscateNaiveProxy (data : List Nat) : Except String (List Nat) := .ok data
def obfuscateUDP2RAW (data : List Nat) : Except String (List Nat) := .ok data
def deobfuscateUDP2RAW (data : List Nat) : Except String (List Nat) := .ok data
def obfuscateCloak (data : List Nat) : Except String (List Nat) := .ok data
def deobfuscateCloak (data : List Nat) : Except String (List Nat) := .ok data
def obfuscateFTEProxy (data : List Nat) : Except String (List Nat) := .ok data
def deobfuscateFTEProxy (data : List Nat) : Except String (List Nat) := .ok data
def obfuscateScrambleSuit (data : List Nat) : Except String (List Nat) := .ok data
def deobfuscateScrambleSuit (data : List Nat) : Except String (List Nat) := .ok data
def obfuscateSnowflake (data : List Nat) : Except String (List Nat) := .ok data
def deobfuscateSnowflake (data : List Nat) : Except String (List Nat) := .ok data

def obfuscateData (protocol : String) (data : List Nat) : Except String (List Nat) :=
  match protocol with
  | "obfs4" => obfuscateObfs4 data
  | "meek" => obfuscateMeek data
  | "naiveproxy" => obfuscateNaiveProxy data
  | "udp2raw" => obfuscateUDP2RAW data
  | "cloak" => obfuscateCloak data
  | "fteproxy" => obfuscateFTEProxy data
  | "scramblesuit" => obfuscateScrambleSuit data
  | "snowflake" => obfuscateSnowflake data
  | _ => .ok data

def deobfuscateData (protocol : String) (data : List Nat) : Except String (List Nat) :=
  match protocol with
  | "obfs4" => deobfuscateObfs4 data
  | "meek" => deobfuscateMeek data
  | "naiveproxy" => deobfuscateNaiveProxy data
  | "udp2raw" => deobfuscateUDP2RAW data
  | "cloak" => deobfuscateCloak data
  | "fteproxy" => deobfuscateFTEProxy data
  | "scramblesuit" => deobfuscateScrambleSuit data
  | "snowflake" => deobfuscateSnowflake data
  | _ => .ok data

/-! ## internal/utils: Retry (source part_000, NewRetry / Retry.Do)

`Delay` is int64 nanoseconds.  `Backoff` is a float64; the update
`delay = time.Duration(float64(delay) * r.Backoff)` is modelled as exact
rational multiplication followed by truncation toward zero (all delays
here are nonnegative, so truncation is `Int.floor`; float64 represents
these products exactly whenever `delay * Backoff.den * Backoff.num`
stays below 2^53, which covers every delay under about 52 days at
backoff 1.5). -/

structure Retry where
  MaxAttempts : Nat
  Delay : Int
  Backoff : ℚ
deriving DecidableEq

/-- `NewRetry` fixes `Backoff` at 1.5. -/
def NewRetry (maxAttempts : Nat) (delay : Int) : Retry :=
  { MaxAttempts := maxAttempts, Delay := delay, Backoff := 3 / 2 }

/-- One step of `delay = time.Duration(float64(delay) * r.Backoff)`. -/
def nextDelay (backoff : ℚ) (delay : Int) : Int :=
  ⌊(delay : ℚ) * backoff⌋

/-- Observable outcome of one `Retry.Do` run: how many times the
operation was invoked, the sleeps performed between attempts (in
order), whether it ended in success, and the final value of the `delay`
variable (the next delay the schedule would use). -/
structure DoResult where
  invocations : Nat
  sleeps : List Int
  success : Bool
  finalDelay : Int
deriving Repr, DecidableEq

/-- The loop body of `Retry.Do`.  `remaining` counts the attempts still
allowed (initially `MaxAttempts`), `attempt` is the Go loop counter,
`op k` tells whether the k-th invocation returns a nil error, `sleeps`
accumulates performed sleeps in reverse, `inv` counts invocations. -/
def retryGo (backoff : ℚ) (op : Nat → Bool) :
    Nat → Nat → Int → List Int → Nat → DoResult
  | 0, _, delay, sleeps, inv =>
      { invocations := inv, sleeps := sleeps.reverse, success := false, finalDelay := delay }
  | Nat.succ rem, attempt, delay, sleeps, inv =>
      if op attempt then
        { invocations := inv + 1, sleeps := sleeps.reverse, success := true, finalDelay := delay }
      else if rem = 0 then
        { invocations := inv + 1, sleeps := sleeps.reverse, success := false, finalDelay := delay }
      else
        retryGo backoff op rem (attempt + 1) (nextDelay backoff delay) (delay :: sleeps) (inv + 1)

/-- `Retry.Do`: attempts run from 1 to `MaxAttempts`; after a failed
attempt that is not the last, the loop sleeps `delay` and multiplies
`delay` by `Backoff`. -/
def Retry.Do (r : Retry) (op : Nat → Bool) : DoResult :=
  retryGo r.Backoff op r.MaxAttempts 1 r.Delay [] 0

/-- The sleep schedule produced by iterating `nextDelay`: the k-th
element (0-based) is the (k)-fold iterate of `nextDelay backoff`
applied to `delay`. -/
def sleepSchedule (backoff : ℚ) (delay : Int) : Nat → List Int
  | 0 => []
  | Nat.succ n => delay :: sleepSchedule backoff (nextDelay backoff delay) n

/-! ## External connection behaviour

A `net.Conn` obtained from the network is external to the repository;
its behaviour is a parameter of the model.  `write closes b` is the
`(n, err)` result of `Write(b)` after `closes` prior `Close()` calls on
the conn, and `close k` is the result of the k-th `Close()` call
(1-indexed).  `tcpConn` instantiates it with the standard `net.TCPConn`
behaviour: operations succeed before `Close`, and any operation after
`Close` (including a second `Close`) fails with
"use of closed network connection". -/

structure ConnBehavior where
  write : Nat → List Nat → Int × Option String
  close : Nat → Option String

def errClosedConn : String := "use of closed network connection"

def tcpConn : ConnBehavior :=
  { write := fun closes b =>
      if closes = 0 then ((b.length : Int), none) else (0, some errClosedConn)
  , close := fun k => if k = 1 then none else some errClosedConn }

/-! ## extensions/legacyvpn: outbound lifecycle
(source part_002: LegacyVPNBaseOutbound.Route / connectAndRoute / Close)

The struct holds `connection net.Conn` with no mutex, no state enum, no
stored error and no closed flag.  `createConnection` (dial plus
handshake) touches the network, so its outcome is supplied by a
`DialEnv`: the k-th invocation (0-indexed) either fails with an error
string or yields a conn.  `dialCount` instruments how many times
`createConnection` has been invoked (the call counter the spec asks to
assert on); `connCloseCalls` counts `Close()` calls forwarded to the
stored conn. -/

def DialEnv : Type := Nat → Except String ConnBehavior

structure LegacyOutboundState where
  connection : Option ConnBehavior
  dialCount : Nat
  connCloseCalls : Nat

def legacyInit : LegacyOutboundState :=
  { connection := none, dialCount := 0, connCloseCalls := 0 }

/-- `connectAndRoute`: if the `connection` field is nil, invoke
`createConnection` (outcome from `env`); on success store the conn, on
failure return the error (nothing is stored, no state is marked).  Then
forward the packet with `connection.Write` and return its error. -/
def connectAndRoute (env : DialEnv) (st : LegacyOutboundState) (data : List Nat) :
    Option String × LegacyOutboundState :=
  match st.connection with
  | none =>
      match env st.dialCount with
      | .error e => (some e, { st with dialCount := st.dialCount + 1 })
      | .ok conn =>
          let st := { st with connection := some conn, dialCount := st.dialCount + 1 }
          ((conn.write st.connCloseCalls data).2, st)
  | some conn => ((conn.write st.connCloseCalls data).2, st)

/-- `Route` delegates to `connectAndRoute`. -/
def legacyRoute (env : DialEnv) (st : LegacyOutboundState) (data : List Nat) :
    Option String × LegacyOutboundState :=
  connectAndRoute env st data

/-- `Close`: `if l.connection != nil { return l.connection.Close() }`.
The field is not cleared, no closed flag is set, and the metrics gauge
is not touched. -/
def legacyClose (st : LegacyOutboundState) : Option String × LegacyOutboundState :=
  match st.connection with
  | some conn =>
      (conn.close (st.connCloseCalls + 1),
       { st with connCloseCalls := st.connCloseCalls + 1 })
  | none => (none, st)

/-! ## Interleaved execution of two concurrent Route calls
(source part_002 LegacyVPNBaseOutbound.connectAndRoute; part_006
SSHBaseOutbound.connectAndRoute is textually identical)

Each Route caller executes, with one interleaving point per access to
the shared `connection` field: (0) read `connection` and test it
against nil; (1) if nil was observed, run `createConnection` (in this
scenario the dial and handshake succeed); (2) store the new conn into
`connection`; (3) write the packet.  `raceStep` advances one thread by
one step; `runRace` runs a schedule (list of thread ids) from the
fresh-outbound state. -/

structure RaceState where
  connection : Bool
  dialCount : Nat
  pc0 : Nat
  sawNil0 : Bool
  pc1 : Nat
  sawNil1 : Bool
deriving Repr, DecidableEq

def raceInit : RaceState :=
  { connection := false, dialCount := 0, pc0 := 0, sawNil0 := false, pc1 := 0, sawNil1 := false }

def threadStep (connection : Bool) (dialCount : Nat) (pc : Nat) (sawNil : Bool) :
    Bool × Nat × Nat × Bool :=
  match pc with
  | 0 => (connection, dialCount, 1, !connection)
  | 1 => if sawNil then (connection, dialCount + 1, 2, sawNil)
         else (connection, dialCount, 3, sawNil)
  | 2 => (true, dialCount, 3, sawNil)
  | 3 => (connection, dialCount, 4, sawNil)
  | _ => (connection, dialCount, pc, sawNil)

def raceStep (s : RaceState) (t : Bool) : RaceState :=
  if t then
    let (conn, dials, pc, saw) := threadStep s.connection s.dialCount s.pc1 s.sawNil1
    { s with connection := conn, dialCount := dials, pc1 := pc, sawNil1 := saw }
  else
    let (conn, dials, pc, saw) := threadStep s.connection s.dialCount s.pc0 s.sawNil0
    { s with connection := conn, dialCount := dials, pc0 := pc, sawNil0 := saw }

def runRace (sched : List Bool) : RaceState :=
  sched.foldl raceStep raceInit

/-! ## extensions/ssh: the dnstt variant
(source part_006: SSHConfig, connectViaDNSTT, mockConn,
performSSHHandshake, createConnection, connectAndRoute)

Only the fields consulted on the paths below are carried.  The
non-dnstt connectors dial the network, so their outcome is supplied by
an environment `net` keyed by the connector the `switch` selects; the
dnstt branch is fully determined by the source. -/

structure SSHConfig where
  Server : String
  Port : Int
  Method : String
  DNSOverHTTPS : String
deriving Repr, DecidableEq

/-- `mockConn`: `Write` returns `(len(b), nil)` regardless of the data
or of prior `Close` calls, `Close` returns nil. -/
def mockConn : ConnBehavior :=
  { write := fun _ b => ((b.length : Int), none)
  , close := fun _ => none }

/-- `mockConn.Read`: always `(0, error)`. -/
def mockConnRead : Int × Option String :=
  (0, some "mock connection - not implemented")

/-- `connectViaDNSTT`: requires a configured DNS-over-HTTPS server,
then returns the mock connection. -/
def connectViaDNSTT (cfg : SSHConfig) : Except String ConnBehavior :=
  if cfg.DNSOverHTTPS = "" then
    .error "DNS-over-HTTPS server required for DNSTT"
  else
    .ok mockConn

/-- Bytes of the version string written by `performSSHHandshake`. -/
def sshVersionBytes : List Nat :=
  "SSH-2.0-UTP-Core_1.0\r\n".toUTF8.toList.map UInt8.toNat

/-- `performSSHHandshake`: writes the version string to the conn and
returns the write error (a fresh conn has seen no `Close` calls). -/
def performSSHHandshake (conn : ConnBehavior) : Option String :=
  (conn.write 0 sshVersionBytes).2

/-- `createConnection`: select the connector by `Method`, wrap a dial
failure, then run the handshake (closing the conn and returning the
error on handshake failure). -/
def sshCreateConnection (net : String → Except String ConnBehavior) (cfg : SSHConfig) :
    Except String ConnBehavior :=
  let dialed : Except String ConnBehavior :=
    match cfg.Method with
    | "direct" => net "net.Dial"
    | "proxy" => net "connectViaProxy"
    | "payload" => net "connectViaPayload"
    | "proxy-payload" => net "connectViaProxyPayload"
    | "tls" => net "connectViaTLS"
    | "tls-proxy" => net "connectViaTLSProxy"
    | "tls-payload" => net "connectViaTLSPayload"
    | "tls-proxy-payload" => net "connectViaTLSProxyPayload"
    | "dnstt" => connectViaDNSTT cfg
    | _ => net "net.Dial"
  match dialed with
  | .error e => .error ("failed to connect: " ++ e)
  | .ok conn =>
      match performSSHHandshake conn with
      | some e => .error e
      | none => .ok conn

structure SSHOutboundState where
  connection : Option ConnBehavior
  dialCount : Nat
  connCloseCalls : Nat

def sshInit : SSHOutboundState :=
  { connection := none, dialCount := 0, connCloseCalls := 0 }

/-- `SSHBaseOutbound.connectAndRoute`: same nil-check / dial / store /
write shape as the legacyvpn variant. -/
def sshConnectAndRoute (net : String → Except String ConnBehavior) (cfg : SSHConfig)
    (st : SSHOutboundState) (data : List Nat) : Option String × SSHOutboundState :=
  match st.connection with
  | none =>
      match sshCreateConnection net cfg with
      | .error e => (some e, { st with dialCount := st.dialCount + 1 })
      | .ok conn =>
          let st := { st with connection := some conn, dialCount := st.dialCount + 1 }
          ((conn.write st.connCloseCalls data).2, st)
  | some conn => ((conn.write st.connCloseCalls data).2, st)

/-! ## Outbound construction
(source part_002 NewL2TPOutbound; part_005 NewOpenVPNOutbound)

`common.Decode` fills absent JSON fields with Go zero values, so an
options blob is modelled as the decoded record (a blob missing a field
decodes to `""` / `0` there) and a nil blob as `none`.  Only the fields
the constructors consult are carried. -/

structure LegacyVPNConfig where
  Server : String
  Port : Int
  Timeout : Int
deriving Repr, DecidableEq

/-- `NewL2TPOutbound`: decode (nil options leave the zero-valued
config), apply defaults, and return the outbound; no field is
validated and no error is possible on the decoded path. -/
def NewL2TPOutbound (options : Option LegacyVPNConfig) : Except String LegacyVPNConfig :=
  let config := options.getD { Server := "", Port := 0, Timeout := 0 }
  let config := if config.Server = "" then { config with Server := "127.0.0.1" } else config
  let config := if config.Port = 0 then { config with Port := 1701 } else config
  let config := if config.Timeout = 0 then { config with Timeout := 30 } else config
  .ok config

structure OpenVPNConfig where
  Server : String
  Port : Int
  Protocol : String
deriving Repr, DecidableEq

/-- `NewOpenVPNOutbound`: nil options fail with "missing config"
(a plain `fmt.Errorf`); decoded options are accepted as-is with no
defaults and no validation. -/
def NewOpenVPNOutbound (options : Option OpenVPNConfig) : Except String OpenVPNConfig :=
  match options with
  | some config => .ok config
  | none => .error "missing config"

/-! ## Concrete environments used by the claim theorems -/

/-- A dial environment in which every `createConnection` attempt
succeeds with a standard TCP connection. -/
def envOkTCP : DialEnv := fun _ => .ok tcpConn

/-- A dial environment in which every `createConnection` attempt fails,
each invocation with its own error message. -/
def envFail : DialEnv :=
  fun k => .error (if k = 0 then "dial failure A" else "dial failure B")

/-- A concrete ssh-dnstt configuration. -/
def dnsttCfg : SSHConfig :=
  { Server := "example.com", Port := 22, Method := "dnstt"
  , DNSOverHTTPS := "https://doh.example/dns-query" }

/-! ## Helper lemmas -/

/-- Behaviour of the `Retry.Do` loop on an operation that never
succeeds: every allowed attempt is used, the performed sleeps follow
`sleepSchedule`, and the final `delay` variable holds the next
(unslept) delay. -/
theorem retryGo_always_fail (b : ℚ) (rem : Nat) :
    ∀ (attempt : Nat) (d : Int) (sleeps : List Int) (inv : Nat),
      retryGo b (fun _ => false) rem attempt d sleeps inv =
        { invocations := inv + rem
        , sleeps := sleeps.reverse ++ sleepSchedule b d (rem - 1)
        , success := false
        , finalDelay := (nextDelay b)^[rem - 1] d } := by
  induction rem with
  | zero =>
      intro attempt d sleeps inv
      simp [retryGo, sleepSchedule]
  | succ r ih =>
      intro attempt d sleeps inv
      cases r with
      | zero =>
          simp [retryGo, sleepSchedule]
      | succ r2 =>
          rw [retryGo]
          simp only [Bool.false_eq_true, if_false, Nat.succ_ne_zero, ih, List.reverse_cons,
            Nat.succ_sub_one, sleepSchedule, Function.iterate_succ_apply, List.append_assoc,
            List.cons_append, List.nil_append]
          have harith : inv + 1 + (r2 + 1) = inv + (r2 + 1 + 1) := by omega
          rw [harith]

/-- Claim C5 (amended): on an always-failing operation `Retry.Do`
invokes the operation exactly `MaxAttempts` times and sleeps the
iterates of `delay = trunc(delay * Backoff)` between attempts; for
`MaxAttempts = 3, Delay = 100ms, Backoff = 1.5` that is exactly 3
invocations with sleeps 100ms and 150ms, the final computed delay being
225ms, and a failure result. -/
theorem retry_do_exhausts_attempts :
    (∀ (m : Nat) (d : Int) (b : ℚ),
      Retry.Do { MaxAttempts := m, Delay := d, Backoff := b } (fun _ => false) =
        { invocations := m, sleeps := sleepSchedule b d (m - 1), success := false
        , finalDelay := (nextDelay b)^[m - 1] d })
    ∧ (NewRetry 3 100000000).Do (fun _ => false) =
        { invocations := 3, sleeps := [100000000, 150000000], success := false
        , finalDelay := 225000000 } := by
  constructor
  · intro m d b
    simp [Retry.Do, retryGo_always_fail]
  · norm_num [Retry.Do, retryGo, NewRetry, nextDelay]

/-- Claim C5 (counterexample to the claim as stated): with
`Delay = 1ns` and `Backoff = 1.5` the second inter-attempt delay
performed by the code is 1ns (the float product is truncated to a whole
`time.Duration`), not `Delay * Backoff^(2-1) = 1.5ns` as the claimed
closed formula requires. -/
theorem retry_delay_formula_counterexample :
    ((NewRetry 3 1).Do (fun _ => false)).sleeps = [1, 1]
    ∧ ((((NewRetry 3 1).Do (fun _ => false)).sleeps.getD 1 0 : ℚ) ≠
        ((NewRetry 3 1).Delay : ℚ) * (NewRetry 3 1).Backoff ^ (2 - 1)) := by
  constructor
  · norm_num [Retry.Do, retryGo, NewRetry, nextDelay]
  · norm_num [Retry.Do, retryGo, NewRetry, nextDelay]

/-- Claim C7: the connection wrapper updates `lastActivity` to the
operation time exactly when the underlying operation succeeds with a
positive byte count; `IsIdle threshold` holds iff the time since
`lastActivity` strictly exceeds the threshold; a wrapper last active
10s ago is idle at threshold 5s; a wrapper is not idle immediately
after a successful write. -/
theorem connection_activity_tracking :
    (∀ (c : Connection) (now n : Int) (err : Option String),
      Connection.Read c now n err =
        ((n, err), if err = none ∧ n > 0 then { lastActivity := now } else c))
    ∧ (∀ (c : Connection) (now n : Int) (err : Option String),
      Connection.Write c now n err =
        ((n, err), if err = none ∧ n > 0 then { lastActivity := now } else c))
    ∧ (∀ (c : Connection) (now duration : Int),
      Connection.IsIdle c now duration = true ↔ now - c.lastActivity > duration)
    ∧ Connection.IsIdle { lastActivity := 0 } 10000000000 5000000000 = true
    ∧ (∀ (c : Connection) (now : Int),
      Connection.IsIdle (Connection.Write c now 4 none).2 now 5000000000 = false) := by
  refine ⟨fun c now n err => rfl, fun c now n err => rfl, fun c now duration => ?_, by decide,
    fun c now => ?_⟩
  · simp [Connection.IsIdle]
  · simp [Connection.Write, Connection.IsIdle]

/-- Claim C9: every obfuscation transform in the dispatcher is the
identity: for every protocol string and every byte slice, both
`obfuscateData` and `deobfuscateData` return the input unchanged with a
nil error, and the round trip is the identity. -/
theorem obfs_transforms_identity :
    ∀ (protocol : String) (data : List Nat),
      obfuscateData protocol data = .ok data
      ∧ deobfuscateData protocol data = .ok data
      ∧ (obfuscateData protocol data).bind (deobfuscateData protocol) = .ok data := by
  intro protocol data
  refine ⟨?_, ?_, ?_⟩
  · unfold obfuscateData
    split <;> rfl
  · unfold deobfuscateData
    split <;> rfl
  · unfold obfuscateData deobfuscateData
    split <;> rfl

/-- Helper for claim C10: applying any sequence of gauge operations
preserves nonnegativity of the connections counter. -/
theorem applyOps_connections_nonneg (ops : List MetricsOp) :
    ∀ (m : Metrics), 0 ≤ m.connections → 0 ≤ (m.applyOps ops).connections := by
  induction ops with
  | nil =>
      intro m h
      simpa [Metrics.applyOps] using h
  | cons op t ih =>
      intro m h
      simp only [Metrics.applyOps, List.foldl_cons] at *
      apply ih
      cases op with
      | inc =>
          simp only [Metrics.applyOp, Metrics.IncConnections]
          omega
      | dec =>
          simp only [Metrics.applyOp, Metrics.DecConnections]
          by_cases hc : m.connections > 0
          · rw [if_pos hc]
            show 0 ≤ m.connections - 1
            omega
          · rw [if_neg hc]
            exact h

/-- Claim C10: from a fresh `Metrics` value, the connections gauge is
nonnegative after any sequence of `IncConnections` / `DecConnections`
calls, and `DecConnections` on a zero gauge leaves it unchanged. -/
theorem metrics_gauge_never_negative :
    (∀ ops : List MetricsOp, 0 ≤ (NewMetrics.applyOps ops).connections)
    ∧ (∀ bs br : Nat,
        Metrics.DecConnections { bytesSent := bs, bytesReceived := br, connections := 0 } =
          { bytesSent := bs, bytesReceived := br, connections := 0 }) := by
  constructor
  · intro ops
    exact applyOps_connections_nonneg ops NewMetrics (by simp [NewMetrics])
  · intro bs br
    simp [Metrics.DecConnections]

/-- Claim C1 (refuting evaluation): the source checks and writes the
shared `connection` field with no lock, so two concurrent `Route`
calls on a fresh outbound admit an interleaving in which both observe
a nil connection and both dial — the schedule below yields two
`createConnection` invocations, while fully serialized execution of
the same two calls yields one. -/
theorem concurrent_route_double_dial :
    (runRace [false, true, false, false, false, true, true, true]).dialCount = 2
    ∧ (runRace [false, false, false, false, true, true, true, true]).dialCount = 1 := by
  constructor <;> rfl

/-- Claim C2 (refuting evaluation): after a failed `createConnection`
the outbound stores no error and enters no terminal state; the next
`Route` call invokes the dial again (the instrumentation counter grows
from 1 to 2) and returns that attempt's own error, which can differ
from the first one. -/
theorem failed_dial_is_retried_by_next_route :
    (legacyRoute envFail legacyInit [1]).1 = some "dial failure A"
    ∧ (legacyRoute envFail legacyInit [1]).2.dialCount = 1
    ∧ (legacyRoute envFail (legacyRoute envFail legacyInit [1]).2 [1]).1 =
        some "dial failure B"
    ∧ (legacyRoute envFail (legacyRoute envFail legacyInit [1]).2 [1]).2.dialCount = 2
    ∧ (legacyRoute envFail legacyInit [1]).1 ≠
        (legacyRoute envFail (legacyRoute envFail legacyInit [1]).2 [1]).1 := by
  refine ⟨rfl, rfl, rfl, rfl, by decide⟩

/-- Claim C3 (refuting evaluation): `Close` leaves the `connection`
field set and records no closed state, so a `Route` after `Close` on a
connected outbound forwards the write to the closed transport and
returns the transport's own error string, and a `Route` after `Close`
on a never-connected outbound dials afresh and succeeds; no `ErrClosed`
value exists in the source. -/
theorem route_after_close_returns_transport_error :
    (legacyRoute envOkTCP (legacyClose (legacyRoute envOkTCP legacyInit [1]).2).2 [1]).1 =
        some errClosedConn
    ∧ errClosedConn ≠ "ErrClosed"
    ∧ (legacyRoute envOkTCP (legacyClose legacyInit).2 [1]).1 = none
    ∧ (legacyRoute envOkTCP (legacyClose legacyInit).2 [1]).2.dialCount = 1 := by
  refine ⟨rfl, by decide, rfl, rfl⟩

/-- Claim C4 (refuting evaluation): construction never validates
required fields.  An l2tp options blob with every field missing is
accepted (defaults fill server/port/timeout); an openvpn blob with
every field missing is accepted unchanged; only a nil openvpn blob
fails, with the plain error "missing config" rather than any
`ErrInvalidConfig` value (none exists in the source). -/
theorem construction_missing_fields_succeeds :
    NewL2TPOutbound (some { Server := "", Port := 0, Timeout := 0 }) =
      .ok { Server := "127.0.0.1", Port := 1701, Timeout := 30 }
    ∧ NewL2TPOutbound none =
      .ok { Server := "127.0.0.1", Port := 1701, Timeout := 30 }
    ∧ NewOpenVPNOutbound (some { Server := "", Port := 0, Protocol := "" }) =
      .ok { Server := "", Port := 0, Protocol := "" }
    ∧ NewOpenVPNOutbound none = .error "missing config" := by
  refine ⟨rfl, rfl, rfl, rfl⟩

/-- Claim C6 (refuting evaluation): because `Close` does not clear the
`connection` field, a second `Close` on a connected outbound forwards
`Close` to the already-closed transport and returns its error; the
first `Close` returns nil. -/
theorem close_twice_second_close_errors :
    (legacyClose (legacyRoute envOkTCP legacyInit [1]).2).1 = none
    ∧ (legacyClose (legacyClose (legacyRoute envOkTCP legacyInit [1]).2).2).1 =
        some errClosedConn
    ∧ some errClosedConn ≠ (none : Option String) := by
  refine ⟨rfl, rfl, by decide⟩

/-- Claim C8: for an ssh outbound with method "dnstt" and a configured
DNS-over-HTTPS server, the established connection is the mock: its
`Write` returns `(len(b), nil)` without transmitting, its `Read`
always errors, and every `Route` (`connectAndRoute`) call returns nil
while leaving the mock as the stored connection. -/
theorem ssh_dnstt_route_succeeds (cfg : SSHConfig)
    (net : String → Except String ConnBehavior)
    (st : SSHOutboundState) (data : List Nat)
    (hm : cfg.Method = "dnstt") (hd : cfg.DNSOverHTTPS ≠ "")
    (hc : st.connection = none ∨ st.connection = some mockConn) :
    (sshConnectAndRoute net cfg st data).1 = none
    ∧ (sshConnectAndRoute net cfg st data).2.connection = some mockConn
    ∧ (∀ (closes : Nat) (b : List Nat), mockConn.write closes b = ((b.length : Int), none))
    ∧ mockConnRead = (0, some "mock connection - not implemented") := by
  have hcreate : sshCreateConnection net cfg = .ok mockConn := by
    simp [sshCreateConnection, hm, connectViaDNSTT, hd, performSSHHandshake, mockConn]
  rcases hc with h | h
  · refine ⟨?_, ?_, fun closes b => rfl, rfl⟩ <;>
      simp [sshConnectAndRoute, h, hcreate, mockConn]
  · refine ⟨?_, ?_, fun closes b => rfl, rfl⟩ <;>
      simp [sshConnectAndRoute, h, mockConn]

/-- Witness for claim C8 at a concrete configuration and packet. -/
theorem ssh_dnstt_route_succeeds_witness :
    dnsttCfg.Method = "dnstt"
    ∧ dnsttCfg.DNSOverHTTPS ≠ ""
    ∧ (sshInit.connection = none ∨ sshInit.connection = some mockConn)
    ∧ ((sshConnectAndRoute (fun _ => .error "unused") dnsttCfg sshInit
          [112, 105, 110, 103]).1 = none
      ∧ (sshConnectAndRoute (fun _ => .error "unused") dnsttCfg sshInit
          [112, 105, 110, 103]).2.connection = some mockConn
      ∧ (∀ (closes : Nat) (b : List Nat), mockConn.write closes b = ((b.length : Int), none))
      ∧ mockConnRead = (0, some "mock connection - not implemented")) :=
  ⟨rfl, by decide, Or.inl rfl,
    ssh_dnstt_route_succeeds dnsttCfg (fun _ => .error "unused") sshInit
      [112, 105, 110, 103] rfl (by decide) (Or.inl rfl)⟩
